import Mathlib

/-!
Verification development for the TribuAI backend
(`backend/app/langgraph_config.py`, `backend/app/qloo_client.py`,
`backend/app/main.py`).

Shallow embedding conventions:
* Python dicts with a fixed key set become Lean structures; a key that can be
  absent and is only read with a falsy default is modelled by the default
  value itself (absent `entity_id` is `none`, absent strings are `""`).
* The outbound HTTP search (`QlooClient.search_entities`) is an oracle
  parameter `SearchFn`; a raised transport/HTTP exception is `.error`.
* `list(set(xs))` (whose element order is unspecified in Python) is modelled
  by `List.dedup`; all properties stated about it are membership properties.
* Python `sorted(key=..., reverse=True)` is a stable descending sort; it is
  modelled by `List.insertionSort` with the non-strict descending relation,
  which is also stable.
* The `popularity` value (a JSON number, float in Python) is modelled as a
  rational number.
-/

namespace TribuAI

/-- One extracted entity, as produced by the parser chain: a dict with keys
`name` and `type` (`langgraph_config.py:246-248`). -/
structure Entity where
  name : String
  type : String
deriving DecidableEq

/-- The per-session profile: the `extracted_entities` dict of
`langgraph_config.py:250-257`, one list of names per fixed category.
An absent key is read only via `.get(category, [])`, so it is identified
with the empty list. -/
structure Profile where
  music : List String
  art : List String
  places : List String
  fashion : List String
  values : List String
  audiences : List String
deriving DecidableEq

/-- The empty profile (`extracted_entities = {}` in `main.py:123`). -/
def emptyProfile : Profile := ⟨[], [], [], [], [], []⟩

/-- Dict lookup `entities.get(field, [])` by category name; an unknown key
yields the empty list. -/
def catGet (p : Profile) (c : String) : List String :=
  match c with
  | "music" => p.music
  | "art" => p.art
  | "places" => p.places
  | "fashion" => p.fashion
  | "values" => p.values
  | "audiences" => p.audiences
  | _ => []

/-- The fixed `required` field enumeration of `langgraph_config.py:66` and
`langgraph_config.py:278`. -/
def requiredFields : List String := ["music", "art", "fashion", "values", "places", "audiences"]

/-- Helper `names_of_type` of `langgraph_config.py:247-248`. -/
def namesOfType (es : List Entity) (t : String) : List String :=
  (es.filter (fun e => e.type = t)).map (fun e => e.name)

/-- The extractor-type to category mapping of `langgraph_config.py:250-257`. -/
def profileOfEntities (es : List Entity) : Profile :=
  { music := namesOfType es "artist"
    art := namesOfType es "art"
    places := namesOfType es "place" ++ namesOfType es "destination"
    fashion := namesOfType es "brand"
    values := namesOfType es "tag"
    audiences := namesOfType es "audience" }

/-- One category step of the accumulation loop `langgraph_config.py:259-266`:
`if new_values: existing[cat] = list(set(existing.get(cat, []) + new_values))`.
Only the member set of the result is meaningful (Python set order is
unspecified). -/
def mergeCat (existing new : List String) : List String :=
  if new.isEmpty then existing else (existing ++ new).dedup

/-- The whole accumulation loop of `langgraph_config.py:259-266`
(EntityAccumulator merge). -/
def mergeProfiles (p q : Profile) : Profile :=
  { music := mergeCat p.music q.music
    art := mergeCat p.art q.art
    places := mergeCat p.places q.places
    fashion := mergeCat p.fashion q.fashion
    values := mergeCat p.values q.values
    audiences := mergeCat p.audiences q.audiences }

/-- Merging a batch of newly extracted entities into a profile: the
composition of the type mapping and the accumulation loop, as performed by
`llm_parser_node`. -/
def mergeEntities (p : Profile) (batch : List Entity) : Profile :=
  mergeProfiles p (profileOfEntities batch)

/-- The `all(len(existing_entities.get(f, [])) > 0 for f in required)`
completeness gate of `langgraph_config.py:277-279`. -/
def profileCompleteB (p : Profile) : Bool :=
  requiredFields.all (fun f => !(catGet p f).isEmpty)

/-- `get_missing_fields` of `langgraph_config.py:65-67`. -/
def getMissingFields (p : Profile) : List String :=
  requiredFields.filter (fun f => (catGet p f).isEmpty)

/-- The `all_entities` collection loops of `langgraph_config.py:269-272` and
`langgraph_config.py:469-472`: at most 2 names per category, in the
insertion order of the `extracted_entities` dict (music, art, places,
fashion, values, audiences — the construction order of
`langgraph_config.py:250-257`). -/
def allEntitiesOf (p : Profile) : List String :=
  p.music.take 2 ++ p.art.take 2 ++ p.places.take 2 ++
  p.fashion.take 2 ++ p.values.take 2 ++ p.audiences.take 2

/-- The Python conjunction `not entities or all(len(v) == 0 for v in
entities.values())` of `langgraph_config.py:398` (dict iteration order as in
`allEntitiesOf`). -/
def profileHasNoEntities (p : Profile) : Bool :=
  p.music.isEmpty && p.art.isEmpty && p.places.isEmpty &&
  p.fashion.isEmpty && p.values.isEmpty && p.audiences.isEmpty

/-- One raw search result, a JSON dict. Keys read by the client:
`name` (`""` when absent), `entity_id` (`none` when absent), `types`
(`[]` when absent), `description`, `image`, `properties.description`
(all `""` when absent), `popularity` (`0` when absent; a float, modelled
as a rational). -/
structure RawResult where
  name : String
  entity_id : Option String
  types : List String
  description : String
  image : String
  propDescription : String
  popularity : ℚ
deriving DecidableEq

/-- A transport/HTTP failure raised by `QlooClient._make_request`
(`qloo_client.py:103-109`): re-raised `httpx` errors, kept opaque. -/
structure QErr where
  msg : String
deriving DecidableEq

/-- The search boundary `QlooClient.search_entities(query, limit)`
(`qloo_client.py:111-143`): it either returns the parsed result list or
re-raises the transport error (`qloo_client.py:141-143`). -/
def SearchFn : Type := String → Nat → Except QErr (List RawResult)

/-- Python truthiness of the `entity_id` value: `None` and `""` are falsy. -/
def idTruthy : Option String → Bool
  | none => false
  | some s => !s.isEmpty

/-- The quality score of `_filter_and_deduplicate` (`qloo_client.py:308-318`):
+2 for an image, +1 for a description, +1 for a nested properties
description, plus `popularity * 10`. -/
def qualityScore (r : RawResult) : ℚ :=
  (if r.image.isEmpty then 0 else 2) +
  (if r.description.isEmpty then 0 else 1) +
  (if r.propDescription.isEmpty then 0 else 1) +
  r.popularity * 10

/-- Stable descending sort by quality score (`qloo_client.py:320-321`,
Python `sorted(items, key=quality_score, reverse=True)`). -/
def sortByQuality (items : List RawResult) : List RawResult :=
  List.insertionSort (fun a b => qualityScore b ≤ qualityScore a) items

/-- Substring test `exclude in name` on the lowercased name
(`qloo_client.py:334-335`). -/
def nameExcluded (excludeNames : List String) (r : RawResult) : Bool :=
  excludeNames.any (fun ex => (ex.toList).IsInfix (r.name.toList.map Char.toLower))

/-- The usefulness test of `qloo_client.py:338-343`: a truthy name and at
least one of description, image, nested description. -/
def isUseful (r : RawResult) : Bool :=
  !r.name.isEmpty &&
  (!r.description.isEmpty || !r.image.isEmpty || !r.propDescription.isEmpty)

/-- The walk of `_filter_and_deduplicate` (`qloo_client.py:323-343`): break
at `limit`, skip already-seen ids (recording the id before the name and
usefulness checks, exactly as the Python `seen.add` does), skip generic
names, emit useful items. -/
def fadLoop (excludeNames : List String) (limit : Nat) (seen : List (Option String))
    (filtered : List RawResult) : List RawResult → List RawResult
  | [] => filtered
  | item :: rest =>
    if limit ≤ filtered.length then filtered
    else if item.entity_id ∈ seen then fadLoop excludeNames limit seen filtered rest
    else if nameExcluded excludeNames item then
      fadLoop excludeNames limit (item.entity_id :: seen) filtered rest
    else if isUseful item then
      fadLoop excludeNames limit (item.entity_id :: seen) (filtered ++ [item]) rest
    else fadLoop excludeNames limit (item.entity_id :: seen) filtered rest

/-- The default `exclude_names` set `{"brand", "place"}`
(`qloo_client.py:299-300`). -/
def defaultExclude : List String := ["brand", "place"]

/-- `QlooClient._filter_and_deduplicate(items, exclude_names, limit)`
(`qloo_client.py:291-345`), the rank-and-filter step: sort by quality,
walk, return `filtered[:limit]`. The unused `min_fields` parameter is
dropped. -/
def filterAndDeduplicate (items : List RawResult) (excludeNames : List String)
    (limit : Nat) : List RawResult :=
  (fadLoop excludeNames limit [] [] (sortByQuality items)).take limit

/-- The structural-validity filter of `qloo_client.py:367-371` and
`qloo_client.py:404-408`: truthy `name`, truthy `entity_id`, and
`"urn:entity" in types`. -/
def validResult (r : RawResult) : Bool :=
  !r.name.isEmpty && idTruthy r.entity_id && r.types.contains "urn:entity"

/-- The brand query-term variants of `qloo_client.py:355-361`. -/
def brandTerms (entity : String) : List String :=
  [entity, entity ++ " brand", entity ++ " fashion", entity ++ " lifestyle"]

/-- The place query-term variants of `qloo_client.py:392-398`. -/
def placeTerms (entity : String) : List String :=
  [entity ++ " destination", entity ++ " city", entity ++ " place", entity]

/-- The inner `for term in search_terms` loop of `qloo_client.py:363-375`
(identical at `qloo_client.py:400-412`), threading the accumulated result
list `acc` (the outer `brands` / `places` variable): search the term with
`limit=5`, append the structurally valid results, and break as soon as the
ACCUMULATED list is non-empty (`if brands: break`). A search error is the
per-entity `except` of `qloo_client.py:377-379`: it abandons the remaining
variants of this entity and keeps the accumulator. -/
def runVariants (search : SearchFn) (acc : List RawResult) : List String → List RawResult
  | [] => acc
  | t :: ts =>
    match search t 5 with
    | .error _ => acc
    | .ok rs =>
      let acc2 := acc ++ rs.filter validResult
      if acc2.isEmpty then runVariants search acc2 ts else acc2

/-- The outer `for entity in entities[:3]` loop of
`qloo_client.py:352-379` / `qloo_client.py:389-416`, collecting raw
results before rank-and-filter. -/
def collectRaw (search : SearchFn) (terms : String → List String)
    (entities : List String) : List RawResult :=
  (entities.take 3).foldl (fun acc e => runVariants search acc (terms e)) []

/-- `QlooClient._get_brand_recommendations` (`qloo_client.py:347-382`). -/
def getBrandRecommendations (search : SearchFn) (entities : List String) : List RawResult :=
  filterAndDeduplicate (collectRaw search brandTerms entities) defaultExclude 5

/-- `QlooClient._get_place_recommendations` (`qloo_client.py:384-419`). -/
def getPlaceRecommendations (search : SearchFn) (entities : List String) : List RawResult :=
  filterAndDeduplicate (collectRaw search placeTerms entities) defaultExclude 5

/-- The `{"brands": ..., "places": ...}` payload returned by the
recommendation methods. -/
structure RecLists where
  brands : List RawResult
  places : List RawResult
deriving DecidableEq

/-- `QlooClient.get_basic_recommendations` (`qloo_client.py:182-222`):
search two general brand terms (limit 3) and three place terms (limit 2),
rank-and-filter each with limit 3; any raised search error is caught by the
method-level `except` (`qloo_client.py:220-222`) and yields the empty
payload. The `context` argument is only logged. -/
def getBasicRecommendations (search : SearchFn) (context : String) : RecLists :=
  match (do
    let b1 ← search "fashion" 3
    let b2 ← search "music" 3
    let p1 ← search "travel" 2
    let p2 ← search "culture" 2
    let p3 ← search "city" 2
    pure (filterAndDeduplicate (b1 ++ b2) defaultExclude 3,
          filterAndDeduplicate (p1 ++ p2 ++ p3) defaultExclude 3) :
      Except QErr (List RawResult × List RawResult)) with
  | .ok (b, p) => ⟨b, p⟩
  | .error _ => ⟨[], []⟩

/-- `QlooClient.get_contextual_recommendations` (`qloo_client.py:224-262`):
flatten up to 2 entities per category, fall back to basic recommendations
when nothing is accumulated, else collect brand and place recommendations.
The brand/place helpers never raise (each search call sits under a
per-entity `except`), so the method-level `except` of
`qloo_client.py:260-262` is unreachable. -/
def getContextualRecommendations (search : SearchFn) (entities : Profile)
    (context : String) : RecLists :=
  let allEntities := allEntitiesOf entities
  if allEntities.isEmpty then getBasicRecommendations search context
  else ⟨getBrandRecommendations search allEntities, getPlaceRecommendations search allEntities⟩

/-- `QlooClient.get_comprehensive_recommendations` (`qloo_client.py:264-289`):
empty payload for a blank narrative, else the narrative itself is the single
query entity for brands and places. -/
def getComprehensiveRecommendations (search : SearchFn) (narrative : String) : RecLists :=
  if narrative.isEmpty || (narrative.toList.all Char.isWhitespace) then ⟨[], []⟩
  else ⟨getBrandRecommendations search [narrative], getPlaceRecommendations search [narrative]⟩

/-- The `{affinity_percentage, shared_interests, audience_cluster}` dict of
`get_matching_info`. -/
structure MatchResult where
  affinity_percentage : Nat
  shared_interests : List String
  audience_cluster : String
deriving DecidableEq

/-- The shared-interest loop of `qloo_client.py:435-443`, instrumented with
the list of queries actually sent (second component): an entity is kept iff
its `search(entity, limit=2)` returns a non-empty list; a raised search
error is caught per entity and the entity is skipped. -/
def matchSharedT (search : SearchFn) : List String → List String × List String
  | [] => ([], [])
  | e :: es =>
    let rest := matchSharedT search es
    match search e 2 with
    | .error _ => (rest.1, e :: rest.2)
    | .ok rs => (if rs.isEmpty then rest.1 else e :: rest.1, e :: rest.2)

/-- `QlooClient.get_matching_info` (`qloo_client.py:421-468`), instrumented
with the list of search queries issued: the empty entity list
short-circuits (`qloo_client.py:427-432`) before any search; otherwise the
step function of `qloo_client.py:446-454` is applied to the shared count.
Nothing after the per-entity `except` can raise, so the method-level
`except` of `qloo_client.py:462-468` is unreachable. -/
def getMatchingInfoT (search : SearchFn) (entities : List String) :
    MatchResult × List String :=
  if entities.isEmpty then (⟨0, [], "General"⟩, [])
  else
    let (shared, trace) := matchSharedT search (entities.take 3)
    if 3 ≤ shared.length then (⟨90, shared, "Cultural Enthusiast"⟩, trace)
    else if 2 ≤ shared.length then (⟨85, shared, "Cultural Explorer"⟩, trace)
    else (⟨75, shared, "Cultural Curious"⟩, trace)

/-- `QlooClient.get_matching_info`, result only. -/
def getMatchingInfo (search : SearchFn) (entities : List String) : MatchResult :=
  (getMatchingInfoT search entities).1

/-- The graph state `TribuAIState` (`langgraph_config.py:24-51`), restricted
to the fields the verified claims touch. `conversation_history` keeps the
raw inputs (the wall-clock timestamps stored next to them are irrelevant to
every claim); `matching = {}` of the initial state and `matching = None`
are both falsy in Python and are modelled as `none`. -/
structure TState where
  user_input : String
  extracted_entities : Profile
  conversation_history : List String
  current_context : String
  profile_complete : Bool
  recommendations : RecLists
  matching : Option MatchResult
  error_message : Option String
  assistant_message : Option String
  current_node : String
deriving DecidableEq

/-- The fresh `graph_input` dict built by `TribuAI.process_input` on EVERY
call (`main.py:118-135`): all accumulators start empty. The hash-derived
`session_id` is not read by any node and is omitted. -/
def initialState (ui : String) : TState :=
  { user_input := ui
    extracted_entities := emptyProfile
    conversation_history := []
    current_context := ""
    profile_complete := false
    recommendations := ⟨[], []⟩
    matching := none
    error_message := none
    assistant_message := none
    current_node := "" }

/-- `llm_parser_node` (`langgraph_config.py:210-293`) with the parser chain
as an oracle `extract`: append the input to the history, map the extracted
entities to categories, accumulate them into the profile, recompute the
context (first 3 of the flattened entities, comma-joined; unchanged when
nothing is accumulated) and the completeness flag. -/
def llmParserNode (extract : String → List Entity) (s : TState) : TState :=
  let history := s.conversation_history ++ [s.user_input]
  let merged := mergeEntities s.extracted_entities (extract s.user_input)
  let allEntities := allEntitiesOf merged
  let context := if allEntities.isEmpty then s.current_context
                 else String.intercalate ", " (allEntities.take 3)
  { s with
    current_node := "llm_parser"
    conversation_history := history
    extracted_entities := merged
    current_context := context
    profile_complete := profileCompleteB merged }

/-- The conditional edge `route_after_parser` (`langgraph_config.py:194-196`). -/
def routeAfterParser (s : TState) : String :=
  if s.profile_complete then "profile_generator" else "conversational_llm"

/-- Python `str.strip()` of the LLM response (`langgraph_config.py:153`). -/
def pyStrip (s : String) : String :=
  String.mk (((s.toList.dropWhile Char.isWhitespace).reverse.dropWhile Char.isWhitespace).reverse)

/-- `build_profile_summary` (`langgraph_config.py:95-101`). -/
def buildProfileSummary (p : Profile) : String :=
  let parts := (["music", "art", "fashion", "values", "places", "audiences"].filter
      (fun f => !(catGet p f).isEmpty)).map
      (fun f => f ++ ": " ++ String.intercalate ", " (catGet p f))
  if parts.isEmpty then "(nothing yet)" else String.intercalate "; " parts

/-- `render_conversational_prompt` (`langgraph_config.py:103-138`), the
f-string with the static text abridged to the load-bearing parts: the known
profile summary, the conversation so far, and the missing fields joined in
order. The LLM is told to choose ONE field from the missing list; no fixed
template and no first-missing rule appears in it. -/
def renderConversationalPrompt (profileSummary : String) (conversationHistory : List String)
    (profileComplete : Bool) (missingFields : List String) : String :=
  let historyStr := String.intercalate "\n" (conversationHistory.map (fun ui => "User: " ++ ui))
  if !profileComplete then
    "\nYou are TribuAI, a cultural intelligence engine and expert conversationalist.\n" ++
    "You already know the following about the user:\n" ++ profileSummary ++ "\n" ++
    "Here is the conversation so far:\n" ++ historyStr ++ "\n" ++
    "The following fields are still missing: " ++ String.intercalate ", " missingFields ++ ".\n" ++
    "Ask a conversational, context-aware question to elicit information about the next missing field (choose one from the missing list).\n" ++
    "Return only your next message to the user.\n"
  else
    "\nYou are TribuAI, a cultural intelligence engine.\n" ++
    "You have collected all required information from the user.\n" ++
    "Thank the user warmly and let them know you are preparing their recommendations.\n" ++
    "Return only your next message to the user.\n"

/-- `conversational_llm_node` (`langgraph_config.py:140-155`) with the chat
model as an oracle `llm`: the assistant message is the stripped free-form
LLM response to the rendered prompt. -/
def conversationalLlmNode (llm : String → String) (s : TState) : TState :=
  let prompt := renderConversationalPrompt (buildProfileSummary s.extracted_entities)
      s.conversation_history s.profile_complete (getMissingFields s.extracted_entities)
  { s with
    assistant_message := some (pyStrip (llm prompt))
    current_node := "conversational_llm" }

/-- The message template of `ask_for_field_node` (`langgraph_config.py:70-86`).
The `field.replace` call is the identity on the six category names (none
contains an underscore). -/
def askForFieldMessage (context fieldName : String) : String :=
  if !context.isEmpty then
    "Based on your interest in " ++ context ++ ", what kind of " ++ fieldName ++ " do you love?"
  else
    "Could you tell me about your favorite " ++ fieldName ++ "?"

/-- The per-field closure produced by `ask_for_field_node`
(`langgraph_config.py:70-86`). These closures are registered in the
`ask_nodes` dict (`langgraph_config.py:89-91`) but NEVER added to the graph
built by `create_tribuai_graph` (`langgraph_config.py:183-204`). -/
def askForFieldNode (fieldName : String) (s : TState) : TState :=
  if s.profile_complete then s
  else
    { s with
      current_node := "ask_" ++ fieldName
      assistant_message := some (askForFieldMessage s.current_context fieldName) }

/-- `build_combined_profile_narrative` (`langgraph_config.py:357-374`). -/
def buildCombinedProfileNarrative (p : Profile) : String :=
  let parts :=
    (if p.music.isEmpty then [] else ["Music: " ++ String.intercalate ", " p.music]) ++
    (if p.art.isEmpty then [] else ["Art: " ++ String.intercalate ", " p.art]) ++
    (if p.fashion.isEmpty then [] else ["Fashion: " ++ String.intercalate ", " p.fashion]) ++
    (if p.values.isEmpty then [] else ["Values: " ++ String.intercalate ", " p.values]) ++
    (if p.places.isEmpty then [] else ["Places: " ++ String.intercalate ", " p.places]) ++
    (if p.audiences.isEmpty then [] else ["Audiences: " ++ String.intercalate ", " p.audiences])
  String.intercalate " | " parts

/-- The completion banner of `langgraph_config.py:418`. -/
def completionMessage : String :=
  "🎉 Perfect! I\u0027ve collected all the information I need about your cultural preferences. Check out your personalized recommendations below!"

/-- `dynamic_recommendations_node` (`langgraph_config.py:377-436`). The only
statement in its `try` block that can raise is the `QlooClient()`
construction (`langgraph_config.py:395`, a missing-credential
`ValueError`), modelled by the `client` argument; `state["current_node"]`
is assigned before it. On an exception the node records `error_message` and
substitutes the empty recommendation payload (`langgraph_config.py:431-436`). -/
def dynamicRecommendationsNode (client : Except QErr SearchFn) (s : TState) : TState :=
  match client with
  | .error err =>
    { s with
      current_node := "dynamic_recommendations"
      error_message := some ("Error in dynamic_recommendations: " ++ err.msg)
      recommendations := ⟨[], []⟩ }
  | .ok search =>
    let recs :=
      if profileHasNoEntities s.extracted_entities then
        getBasicRecommendations search s.current_context
      else if s.conversation_history.length ≤ 2 ∨ s.profile_complete = false then
        getContextualRecommendations search s.extracted_entities s.current_context
      else
        getComprehensiveRecommendations search (buildCombinedProfileNarrative s.extracted_entities)
    let s2 := { s with current_node := "dynamic_recommendations", recommendations := recs }
    if s.profile_complete then { s2 with assistant_message := some completionMessage } else s2

/-- `optional_match_node` (`langgraph_config.py:439-490`). When the profile
is incomplete the node clears `matching` and returns before the client is
built; otherwise the `QlooClient()` construction can raise, in which case
the `except` branch (`langgraph_config.py:487-490`) records `error_message`
and leaves every other field as it was. -/
def optionalMatchNode (client : Except QErr SearchFn) (s : TState) : TState :=
  let s0 := { s with current_node := "optional_match" }
  if s.profile_complete = false then { s0 with matching := none }
  else
    match client with
    | .error err => { s0 with error_message := some ("Error in optional_match: " ++ err.msg) }
    | .ok search =>
      { s0 with matching := some (getMatchingInfo search (allEntitiesOf s.extracted_entities)) }

/-- The three retrieval strategies a turn can select. -/
inductive Strategy
  | basic (context : String)
  | contextual (entities : Profile) (context : String)
  | comprehensive (narrative : String)
deriving DecidableEq

/-- The strategy dispatch of `dynamic_recommendations_node`
(`langgraph_config.py:397-412`), selection only. -/
def selectStrategy (p : Profile) (context : String) (historyLen : Nat)
    (complete : Bool) : Strategy :=
  if profileHasNoEntities p then .basic context
  else if historyLen ≤ 2 ∨ complete = false then .contextual p context
  else .comprehensive (buildCombinedProfileNarrative p)

/-- Executing a selected strategy against the client. -/
def runStrategy (search : SearchFn) : Strategy → RecLists
  | .basic context => getBasicRecommendations search context
  | .contextual entities context => getContextualRecommendations search entities context
  | .comprehensive narrative => getComprehensiveRecommendations search narrative

/-- Modelled from the spec wording of claim C2: the narrative concatenates
each non-empty category as `"Category: v1, v2"` joined by `" | "`. Used
only to compare against `buildCombinedProfileNarrative`. -/
def narrativeSpec (p : Profile) : String :=
  let categories : List (String × List String) :=
    [("Music", p.music), ("Art", p.art), ("Fashion", p.fashion),
     ("Values", p.values), ("Places", p.places), ("Audiences", p.audiences)]
  String.intercalate " | " (categories.filterMap
    (fun lv => if lv.2.isEmpty then none
               else some (lv.1 ++ ": " ++ String.intercalate ", " lv.2)))

/-- Modelled from the spec wording of claim C2: the exact selection
precedence the claim states. Used only to compare against
`selectStrategy`. -/
def selectStrategySpec (p : Profile) (context : String) (historyLen : Nat)
    (complete : Bool) : Strategy :=
  if requiredFields.all (fun f => (catGet p f).isEmpty) then .basic context
  else if historyLen ≤ 2 ∨ complete = false then .contextual p context
  else .comprehensive (narrativeSpec p)

/-- Modelled from the spec wording of claim C4: for ONE entity, try the
query-term variants in order until one yields at least one structurally
valid result FOR THAT ENTITY, then stop. (The claim is silent on search
errors; as in the code, an error ends the attempts for the entity.) -/
def untilFirstValid (search : SearchFn) : List String → List RawResult
  | [] => []
  | t :: ts =>
    match search t 5 with
    | .error _ => []
    | .ok rs =>
      let v := rs.filter validResult
      if v.isEmpty then untilFirstValid search ts else v

/-- Modelled from the spec wording of claim C4: each of the first 3 entities
contributes, independently of the others, the results of its first
successful variant. Used only to compare against `collectRaw`. -/
def collectRawClaim (search : SearchFn) (terms : String → List String)
    (entities : List String) : List RawResult :=
  (entities.take 3).foldl (fun acc e => acc ++ untilFirstValid search (terms e)) []

/-- The first-variant-only behaviour `collectRaw` exhibits once the
accumulator is non-empty: the first variant is searched, its valid results
are appended, and no further variant of the entity is tried. -/
def tryFirstOnly (search : SearchFn) (acc : List RawResult) : List String → List RawResult
  | [] => acc
  | t :: _ =>
    match search t 5 with
    | .error _ => acc
    | .ok rs => acc ++ rs.filter validResult

/-- The amended per-entity behaviour of claim C4: variants stop as soon as
the CROSS-ENTITY accumulator is non-empty, so an entity that starts with a
non-empty accumulator only ever has its first variant searched. -/
def runVariantsAmended (search : SearchFn) (acc : List RawResult)
    (ts : List String) : List RawResult :=
  if acc.isEmpty then untilFirstValid search ts else tryFirstOnly search acc ts

/-- Modelled from the spec wording of claim C8: a recommendBrands in which a
transport error raised by any issued search propagates to the caller
instead of being caught per entity. Used only to compare against
`getBrandRecommendations`. -/
def variantsPropagating (search : SearchFn) (acc : List RawResult) :
    List String → Except QErr (List RawResult)
  | [] => .ok acc
  | t :: ts => do
    let rs ← search t 5
    let acc2 := acc ++ rs.filter validResult
    if acc2.isEmpty then variantsPropagating search acc2 ts else pure acc2

/-- Modelled from the spec wording of claim C8: error-propagating raw
collection over the first 3 entities. -/
def collectRawPropagating (search : SearchFn) (terms : String → List String)
    (entities : List String) : Except QErr (List RawResult) :=
  (entities.take 3).foldlM (fun acc e => variantsPropagating search acc (terms e)) []

/-- Modelled from the spec wording of claim C8: recommendBrands with
error propagation. -/
def getBrandRecommendationsClaim (search : SearchFn) (entities : List String) :
    Except QErr (List RawResult) := do
  let raw ← collectRawPropagating search brandTerms entities
  pure (filterAndDeduplicate raw defaultExclude 5)

/-! ## Helper lemmas -/

/-- The walk of `_filter_and_deduplicate` keeps ids pairwise distinct: every
already-emitted id is in `seen`, and an item is only emitted when its id is
not. -/
lemma fadLoop_pairwise (excludeNames : List String) (limit : Nat)
    (items : List RawResult) : ∀ (seen : List (Option String)) (filtered : List RawResult),
    (∀ a ∈ filtered, a.entity_id ∈ seen) →
    filtered.Pairwise (fun a b => a.entity_id ≠ b.entity_id) →
    (fadLoop excludeNames limit seen filtered items).Pairwise
      (fun a b => a.entity_id ≠ b.entity_id) := by
  induction items with
  | nil => intro seen filtered _ hpw; simpa [fadLoop] using hpw
  | cons item rest ih =>
    intro seen filtered hsub hpw
    unfold fadLoop
    by_cases h1 : limit ≤ filtered.length
    · simpa [h1] using hpw
    · simp only [h1, if_false]
      by_cases h2 : item.entity_id ∈ seen
      · simpa [h2] using ih seen filtered hsub hpw
      · have hsub2 : ∀ a ∈ filtered ++ [item], a.entity_id ∈ item.entity_id :: seen := by
          intro a ha
          rcases List.mem_append.mp ha with ha | ha
          · exact List.mem_cons_of_mem _ (hsub a ha)
          · simp only [List.mem_singleton] at ha
            subst ha; exact List.mem_cons_self _ _
        have hpw2 : (filtered ++ [item]).Pairwise (fun a b => a.entity_id ≠ b.entity_id) := by
          refine List.pairwise_append.mpr ⟨hpw, List.pairwise_singleton _ _, ?_⟩
          intro a ha b hb
          simp only [List.mem_singleton] at hb
          subst hb
          intro heq
          exact h2 (heq ▸ hsub a ha)
        have hsub1 : ∀ a ∈ filtered, a.entity_id ∈ item.entity_id :: seen :=
          fun a ha => List.mem_cons_of_mem _ (hsub a ha)
        by_cases h3 : nameExcluded excludeNames item
        · simpa [h2, h3] using ih _ filtered hsub1 hpw
        · by_cases h4 : isUseful item
          · simpa [h2, h3, h4] using ih _ (filtered ++ [item]) hsub2 hpw2
          · simpa [h2, h3, h4] using ih _ filtered hsub1 hpw

/-- Idempotence of one category step of the accumulation loop, at the level
of member sets. -/
lemma mergeCat_idem (e n : List String) (x : String) :
    x ∈ mergeCat (mergeCat e n) n ↔ x ∈ mergeCat e n := by
  cases h : n.isEmpty
  · simp only [mergeCat, h, Bool.false_eq_true, if_false, List.mem_dedup, List.mem_append]
    tauto
  · simp [mergeCat, h]

/-! ## Claim theorems -/

/-- Claim C6: for every input item list, exclusion set and limit, the list
emitted by `_filter_and_deduplicate` (rankAndFilter) never contains two
items with the same opaque entity id and never contains more than `limit`
items. -/
theorem rankAndFilter_no_dup_no_overflow (items : List RawResult)
    (excludeNames : List String) (limit : Nat) :
    (filterAndDeduplicate items excludeNames limit).Pairwise
      (fun a b => a.entity_id ≠ b.entity_id)
    ∧ (filterAndDeduplicate items excludeNames limit).length ≤ limit := by
  constructor
  · exact List.Pairwise.sublist (List.take_sublist _ _)
      (fadLoop_pairwise excludeNames limit (sortByQuality items) [] []
        (by simp) (by simp))
  · rw [filterAndDeduplicate, List.length_take]
    exact min_le_left _ _

/-- Claim C7: EntityAccumulator merge is idempotent: merging the same batch
of newly extracted entities twice yields the same Profile, as per-category
sets of names, as merging it once. -/
theorem merge_idempotent (p : Profile) (batch : List Entity) (c x : String) :
    x ∈ catGet (mergeEntities (mergeEntities p batch) batch) c ↔
    x ∈ catGet (mergeEntities p batch) c := by
  unfold mergeEntities mergeProfiles catGet
  split <;> first
    | exact mergeCat_idem _ _ _
    | exact Iff.rfl

/-- The shared-interest list computed inside `get_matching_info` for a
non-empty entity list. -/
def sharedOf (search : SearchFn) (entities : List String) : List String :=
  (matchSharedT search (entities.take 3)).1

/-- A structurally valid sample search result. -/
def sampleResult : RawResult :=
  ⟨"Sample", some "id1", ["urn:entity"], "a sample description", "", "", 0⟩

/-- An oracle whose every search succeeds with one result. -/
def okSearch : SearchFn := fun _ _ => .ok [sampleResult]

/-- An oracle whose every search succeeds with no results. -/
def emptyOkSearch : SearchFn := fun _ _ => .ok []

/-- Claim C5 as amended: for every NON-EMPTY input entity list, the affinity
is the discrete step function of the shared count (an entity of the first
three is shared iff its search returns at least one result): at least 3
shared yields 90 and "Cultural Enthusiast", exactly 2 yields 85 and
"Cultural Explorer", and 0 or 1 yields 75 and "Cultural Curious". -/
theorem affinity_step_function (search : SearchFn) (entities : List String)
    (h : entities ≠ []) :
    (3 ≤ (sharedOf search entities).length →
      getMatchingInfo search entities =
        ⟨90, sharedOf search entities, "Cultural Enthusiast"⟩)
    ∧ ((sharedOf search entities).length = 2 →
      getMatchingInfo search entities =
        ⟨85, sharedOf search entities, "Cultural Explorer"⟩)
    ∧ ((sharedOf search entities).length ≤ 1 →
      getMatchingInfo search entities =
        ⟨75, sharedOf search entities, "Cultural Curious"⟩) := by
  have hne : entities.isEmpty = false := by
    cases entities with
    | nil => exact absurd rfl h
    | cons a l => rfl
  rcases hp : matchSharedT search (entities.take 3) with ⟨shared, trace⟩
  have hs : sharedOf search entities = shared := by rw [sharedOf, hp]
  unfold getMatchingInfo getMatchingInfoT
  simp only [hne, Bool.false_eq_true, if_false, hp, hs]
  refine ⟨fun hl => ?_, fun hl => ?_, fun hl => ?_⟩
  · rw [if_pos hl]
  · rw [if_neg (by omega), if_pos (by omega)]
  · rw [if_neg (by omega), if_neg (by omega)]

/-- Witness for the amended claim C5 at a concrete input: three entities,
every search non-empty, affinity 90. -/
theorem affinity_step_function_witness :
    getMatchingInfo okSearch ["a", "b", "c"] =
      ⟨90, ["a", "b", "c"], "Cultural Enthusiast"⟩ := by
  have h := affinity_step_function okSearch ["a", "b", "c"] (by decide)
  have h90 := h.1 (by decide)
  rw [h90]
  decide

/-- Counterexample to claim C5 as stated: on the empty entity list the
shared count is 0 (at most 1), yet the affinity is 0 with cluster
"General", not the 75 / "Cultural Curious" the step function prescribes. -/
theorem affinity_step_function_cex :
    (sharedOf emptyOkSearch []).length ≤ 1
    ∧ getMatchingInfo emptyOkSearch [] ≠
        ⟨75, sharedOf emptyOkSearch [], "Cultural Curious"⟩
    ∧ getMatchingInfo emptyOkSearch [] = ⟨0, [], "General"⟩ := by
  refine ⟨by decide, by decide, by decide⟩

/-- The inner variant loop agrees with the amended description: with an
empty accumulator it searches variants until the first one with a valid
result, with a non-empty accumulator it searches only the first variant. -/
lemma runVariants_eq_amended (search : SearchFn) (ts : List String) :
    ∀ acc, runVariants search acc ts = runVariantsAmended search acc ts := by
  induction ts with
  | nil =>
    intro acc
    cases h : acc.isEmpty
    · simp [runVariants, runVariantsAmended, tryFirstOnly, h]
    · have : acc = [] := List.isEmpty_iff.mp h
      subst this
      simp [runVariants, runVariantsAmended, untilFirstValid]
  | cons t ts ih =>
    intro acc
    cases h : acc.isEmpty
    · have hne : acc ≠ [] := by
        intro hnil; subst hnil; simp at h
      unfold runVariants runVariantsAmended tryFirstOnly
      simp only [h, Bool.false_eq_true, if_false]
      cases search t 5 with
      | error e => rfl
      | ok rs =>
        have : (acc ++ rs.filter validResult).isEmpty = false := by
          cases acc with
          | nil => exact absurd rfl hne
          | cons a l => rfl
        simp [this]
    · have : acc = [] := List.isEmpty_iff.mp h
      subst this
      unfold runVariants runVariantsAmended untilFirstValid
      simp only [List.isEmpty_nil, if_pos]
      cases search t 5 with
      | error e => rfl
      | ok rs =>
        simp only [List.nil_append]
        cases hv : (rs.filter validResult).isEmpty
        · simp [hv]
        · have hvnil : rs.filter validResult = [] := List.isEmpty_iff.mp hv
          simp only [hv, if_pos, hvnil]
          have := ih []
          simpa [runVariantsAmended, List.isEmpty_nil] using this

/-- Claim C4 as amended: in `_get_brand_recommendations` and
`_get_place_recommendations`, for each of the first 3 entities the variants
are tried in order only until the CROSS-ENTITY accumulated result list is
non-empty; an entity processed while the accumulator is already non-empty
has exactly its first variant searched, and an entity whose tried variants
yield no valid result contributes zero raw results. -/
theorem variant_break_behaviour (search : SearchFn) (entities : List String) :
    collectRaw search brandTerms entities =
      (entities.take 3).foldl (fun acc e => runVariantsAmended search acc (brandTerms e)) []
    ∧ collectRaw search placeTerms entities =
      (entities.take 3).foldl (fun acc e => runVariantsAmended search acc (placeTerms e)) [] := by
  constructor <;>
  · unfold collectRaw
    congr 1
    funext acc e
    exact runVariants_eq_amended search _ acc

/-- First counterexample witness result: a valid brand hit for entity A. -/
def brandResultA : RawResult := ⟨"Nike", some "e1", ["urn:entity"], "shoes", "", "", 0⟩

/-- Second counterexample witness result: a valid brand hit that only the
second variant of entity B returns. -/
def brandResultB : RawResult := ⟨"Patagonia", some "e2", ["urn:entity"], "outdoor", "", "", 0⟩

/-- Counterexample oracle for claim C4: entity A hits on its first variant,
entity B only on its second variant `"B brand"`. -/
def oracleC4 : SearchFn := fun q _ =>
  if q = "A" then .ok [brandResultA]
  else if q = "B brand" then .ok [brandResultB]
  else .ok []

/-- Counterexample to claim C4 as stated: with entity A hitting at once and
entity B hitting only on its second variant, the code stops after the FIRST
variant of B (the accumulator is already non-empty) and loses B entirely,
while the per-entity reading of the claim collects both. -/
theorem variant_break_cex :
    collectRaw oracleC4 brandTerms ["A", "B"] = [brandResultA]
    ∧ collectRawClaim oracleC4 brandTerms ["A", "B"] = [brandResultA, brandResultB]
    ∧ collectRaw oracleC4 brandTerms ["A", "B"] ≠
        collectRawClaim oracleC4 brandTerms ["A", "B"] := by
  refine ⟨by decide, by decide, by decide⟩

/-- An oracle whose every search raises the given transport error. -/
def failSearch (err : QErr) : SearchFn := fun _ _ => .error err

/-- With an always-failing search, one variant loop returns its accumulator
unchanged (the first variant raises and the per-entity handler gives up on
the entity). -/
lemma runVariants_fail (err : QErr) (acc : List RawResult) (t : String)
    (ts : List String) : runVariants (failSearch err) acc (t :: ts) = acc := rfl

/-- With an always-failing search the raw collection over any entity list is
empty. -/
lemma collectRaw_fail (err : QErr) (terms : String → List String)
    (hcons : ∀ e, ∃ t ts, terms e = t :: ts) (entities : List String) :
    collectRaw (failSearch err) terms entities = [] := by
  unfold collectRaw
  generalize entities.take 3 = l
  have : ∀ (l : List String) (acc : List RawResult),
      l.foldl (fun a e => runVariants (failSearch err) a (terms e)) acc = acc := by
    intro l
    induction l with
    | nil => intro acc; rfl
    | cons e l ih =>
      intro acc
      obtain ⟨t, ts, he⟩ := hcons e
      rw [List.foldl_cons, he, runVariants_fail, ih]
  exact this l []

/-- With an always-failing search the shared-interest loop keeps nothing. -/
lemma matchShared_fail (err : QErr) (l : List String) :
    (matchSharedT (failSearch err) l).1 = [] := by
  induction l with
  | nil => rfl
  | cons e l ih => simp [matchSharedT, failSearch, ih]

/-- Claim C8 as amended: transport/HTTP errors raised by `search` are caught
INSIDE the client methods themselves (per entity in the brand/place/match
loops, per method in the basic variant), which substitute empty or default
results; no search error reaches the caller. Stated for the
everything-fails oracle: every recommend/compute method returns its
ordinary default value. -/
theorem search_errors_swallowed (err : QErr) (context narrative : String)
    (entities : List String) (prof : Profile) :
    getBrandRecommendations (failSearch err) entities = []
    ∧ getPlaceRecommendations (failSearch err) entities = []
    ∧ getBasicRecommendations (failSearch err) context = ⟨[], []⟩
    ∧ getContextualRecommendations (failSearch err) prof context = ⟨[], []⟩
    ∧ getComprehensiveRecommendations (failSearch err) narrative = ⟨[], []⟩
    ∧ getMatchingInfo (failSearch err) entities =
        (if entities.isEmpty then ⟨0, [], "General"⟩ else ⟨75, [], "Cultural Curious"⟩) := by
  have hbrand : ∀ es, getBrandRecommendations (failSearch err) es = [] := by
    intro es
    rw [getBrandRecommendations, collectRaw_fail err brandTerms (fun e => ⟨_, _, rfl⟩)]
    rfl
  have hplace : ∀ es, getPlaceRecommendations (failSearch err) es = [] := by
    intro es
    rw [getPlaceRecommendations, collectRaw_fail err placeTerms (fun e => ⟨_, _, rfl⟩)]
    rfl
  have hbasic : getBasicRecommendations (failSearch err) context = ⟨[], []⟩ := rfl
  refine ⟨hbrand entities, hplace entities, hbasic, ?_, ?_, ?_⟩
  · rw [getContextualRecommendations]
    cases h : (allEntitiesOf prof).isEmpty
    · simp only [h, Bool.false_eq_true, if_false, hbrand, hplace]
    · simp only [h, if_pos]
      exact hbasic
  · rw [getComprehensiveRecommendations]
    cases h : (narrative.isEmpty || narrative.toList.all Char.isWhitespace)
    · simp only [h, Bool.false_eq_true, if_false, hbrand, hplace]
    · simp only [h, if_pos]
  · rw [getMatchingInfo, getMatchingInfoT]
    cases h : entities.isEmpty
    · simp [h, matchShared_fail]
    · simp only [h, if_pos]

/-- A concrete HTTP failure. -/
def err500 : QErr := ⟨"HTTP 500"⟩

/-- Counterexample to claim C8 as stated: with every search raising, the
code-level recommendBrands returns the ordinary empty list and computeMatch
returns the ordinary default MatchResult — the error does NOT propagate —
whereas the spec-worded propagating variant surfaces the error to the
caller. -/
theorem search_error_propagation_cex :
    getBrandRecommendations (failSearch err500) ["Nike"] = []
    ∧ getBrandRecommendationsClaim (failSearch err500) ["Nike"] = .error err500
    ∧ getMatchingInfo (failSearch err500) ["Nike"] = ⟨75, [], "Cultural Curious"⟩ := by
  refine ⟨rfl, rfl, rfl⟩

/-- The two spellings of "no entities in any category" agree. -/
lemma profileHasNoEntities_eq (p : Profile) :
    profileHasNoEntities p = requiredFields.all (fun f => (catGet p f).isEmpty) := by
  simp only [profileHasNoEntities, requiredFields, List.all_cons, List.all_nil, catGet,
    Bool.and_true]
  cases p.music.isEmpty <;> cases p.art.isEmpty <;> cases p.places.isEmpty <;>
    cases p.fashion.isEmpty <;> cases p.values.isEmpty <;> cases p.audiences.isEmpty <;> rfl

/-- The code-side narrative builder produces exactly the spec-worded
narrative. -/
lemma narrative_eq (p : Profile) : buildCombinedProfileNarrative p = narrativeSpec p := by
  unfold buildCombinedProfileNarrative narrativeSpec
  by_cases hm : p.music = [] <;> by_cases ha : p.art = [] <;>
    by_cases hf : p.fashion = [] <;> by_cases hv : p.values = [] <;>
    by_cases hp : p.places = [] <;> by_cases hau : p.audiences = [] <;>
    simp [hm, ha, hf, hv, hp, hau, List.isEmpty_iff]

/-- Claim C2: for every turn executed with a working client, the
recommendation payload is exactly the result of the spec-stated strategy
precedence — no entities anywhere yields the basic strategy, a history of
length at most 2 or an incomplete profile yields the contextual strategy,
and otherwise the comprehensive strategy runs on the narrative that joins
each non-empty category as "Category: v1, v2" with " | "; and the code-side
selector coincides with the spec-side selector on all inputs. -/
theorem strategy_selection_exact (search : SearchFn) (s : TState) :
    (dynamicRecommendationsNode (.ok search) s).recommendations =
      runStrategy search (selectStrategySpec s.extracted_entities s.current_context
        s.conversation_history.length s.profile_complete)
    ∧ ∀ (p : Profile) (context : String) (historyLen : Nat) (complete : Bool),
        selectStrategy p context historyLen complete =
          selectStrategySpec p context historyLen complete := by
  have hsel : ∀ (p : Profile) (context : String) (historyLen : Nat) (complete : Bool),
      selectStrategy p context historyLen complete =
        selectStrategySpec p context historyLen complete := by
    intro p context historyLen complete
    unfold selectStrategy selectStrategySpec
    rw [profileHasNoEntities_eq, narrative_eq]
  constructor
  · have hnode : (dynamicRecommendationsNode (.ok search) s).recommendations =
        runStrategy search (selectStrategy s.extracted_entities s.current_context
          s.conversation_history.length s.profile_complete) := by
      unfold dynamicRecommendationsNode selectStrategy
      cases hpc : s.profile_complete
      · by_cases h1 : profileHasNoEntities s.extracted_entities <;>
          simp [hpc, h1, runStrategy]
      · by_cases h1 : profileHasNoEntities s.extracted_entities
        · simp [hpc, h1, runStrategy]
        · by_cases h2 : s.conversation_history.length ≤ 2 <;>
            simp [hpc, h1, h2, runStrategy]
    rw [hnode, hsel]
  · exact hsel

/-- Testing that every element fails a predicate is the same as the filter
by that predicate being empty. -/
lemma all_not_eq_filter_isEmpty {α : Type} (l : List α) (q : α → Bool) :
    l.all (fun x => !q x) = (l.filter q).isEmpty := by
  induction l with
  | nil => rfl
  | cons a l ih => cases h : q a <;> simp [h, ih]

/-- An extractor oracle that finds nothing. -/
def extractNothing : String → List Entity := fun _ => []

/-- The state of a first turn whose extraction found nothing: profile empty
and incomplete, context still empty. -/
def s3 : TState := llmParserNode extractNothing (initialState "hello")

/-- Claim C3 as amended: on every turn with an incomplete profile, the graph
routes to the conversational LLM node — not to the template ask nodes,
which are never wired into the graph — and the assistant message is the
stripped free-form LLM reply to a prompt that carries the missing
categories; the missing-category list is the fixed enumeration
[music, art, fashion, values, places, audiences] restricted to the empty
categories, and the completeness flag is exactly "no missing category". -/
theorem missing_field_routing_amended (llm : String → String) (s : TState)
    (h : s.profile_complete = false) :
    routeAfterParser s = "conversational_llm"
    ∧ (conversationalLlmNode llm s).assistant_message =
        some (pyStrip (llm (renderConversationalPrompt
          (buildProfileSummary s.extracted_entities) s.conversation_history
          s.profile_complete (getMissingFields s.extracted_entities))))
    ∧ (∀ f, f ∈ getMissingFields s.extracted_entities ↔
        f ∈ requiredFields ∧ (catGet s.extracted_entities f).isEmpty = true)
    ∧ profileCompleteB s.extracted_entities = (getMissingFields s.extracted_entities).isEmpty := by
  refine ⟨?_, rfl, ?_, ?_⟩
  · unfold routeAfterParser
    simp [h]
  · intro f
    simp [getMissingFields, List.mem_filter]
  · exact all_not_eq_filter_isEmpty requiredFields _

/-- Witness for the amended claim C3 at a concrete turn: empty profile,
route goes to the conversational node, and "music" is among the missing
categories the prompt carries. -/
theorem missing_field_routing_amended_witness :
    routeAfterParser s3 = "conversational_llm"
    ∧ "music" ∈ getMissingFields s3.extracted_entities := by
  have h := missing_field_routing_amended (fun _ => "Hi") s3 (by decide)
  exact ⟨h.1, (h.2.2.1 "music").mpr ⟨by decide, by decide⟩⟩

/-- Counterexample to claim C3 as stated: a turn with an incomplete profile
whose first missing category is "music", where the assistant message is the
free-form LLM reply ("Hi"), not the ask-node template for "music". -/
theorem missing_field_template_cex :
    s3.profile_complete = false
    ∧ routeAfterParser s3 = "conversational_llm"
    ∧ (getMissingFields s3.extracted_entities).head? = some "music"
    ∧ (conversationalLlmNode (fun _ => "Hi") s3).assistant_message = some "Hi"
    ∧ some "Hi" ≠ some (askForFieldMessage s3.current_context "music") := by
  refine ⟨by decide, by decide, by decide, by decide, by decide⟩

/-- Claim C9: when the recommendation node or the matching node raises (the
client construction is the only raising statement in each), the exception
is caught at the node boundary: an error message is recorded, the
recommendation node substitutes the empty payload, the matching output of
the turn is the falsy default, and the accumulated profile passes through
untouched (the nodes always return a state). `s.matching = none` is the
falsy `matching` every turn starts from (`main.py:126`). -/
theorem node_failure_isolated (cRec cMatch : Except QErr SearchFn) (s : TState)
    (h : s.matching = none) :
    ((optionalMatchNode cMatch (dynamicRecommendationsNode cRec s)).extracted_entities
        = s.extracted_entities)
    ∧ (∀ e, cRec = .error e →
        (dynamicRecommendationsNode cRec s).recommendations = ⟨[], []⟩
        ∧ (dynamicRecommendationsNode cRec s).error_message.isSome = true)
    ∧ (∀ e, cMatch = .error e →
        (optionalMatchNode cMatch (dynamicRecommendationsNode cRec s)).matching = none
        ∧ (s.profile_complete = true →
          (optionalMatchNode cMatch (dynamicRecommendationsNode cRec s)).error_message.isSome
            = true)) := by
  have hs1 : ((dynamicRecommendationsNode cRec s).extracted_entities = s.extracted_entities)
      ∧ ((dynamicRecommendationsNode cRec s).profile_complete = s.profile_complete)
      ∧ ((dynamicRecommendationsNode cRec s).matching = none) := by
    cases cRec with
    | error e => exact ⟨rfl, rfl, h⟩
    | ok f =>
      unfold dynamicRecommendationsNode
      cases s.profile_complete <;> exact ⟨rfl, rfl, h⟩
  refine ⟨?_, ?_, ?_⟩
  · unfold optionalMatchNode
    cases hpc : (dynamicRecommendationsNode cRec s).profile_complete
    · simp [hs1.1]
    · cases cMatch <;> simp [hs1.1]
  · intro e he
    subst he
    exact ⟨rfl, rfl⟩
  · intro e he
    subst he
    constructor
    · unfold optionalMatchNode
      cases hpc : (dynamicRecommendationsNode cRec s).profile_complete <;>
        simp [hs1.2.2]
    · intro hc
      unfold optionalMatchNode
      rw [hs1.2.1, hc]
      rfl

/-- A state with a complete profile about to run the recommendation and
matching nodes. -/
def s9 : TState :=
  { user_input := "x"
    extracted_entities := ⟨["m"], ["a"], ["p"], ["f"], ["v"], ["au"]⟩
    conversation_history := ["x"]
    current_context := "m, a, p"
    profile_complete := true
    recommendations := ⟨[], []⟩
    matching := none
    error_message := none
    assistant_message := none
    current_node := "" }

/-- The missing-credential construction error of `qloo_client.py:40-42`. -/
def errNoKey : QErr := ⟨"X-Api-Key environment variable is required"⟩

/-- Witness for claim C9 at a concrete turn: both node clients fail, the
turn still carries the profile, empty recommendations and falsy matching. -/
theorem node_failure_isolated_witness :
    (optionalMatchNode (.error errNoKey)
        (dynamicRecommendationsNode (.error errNoKey) s9)).matching = none
    ∧ (dynamicRecommendationsNode (.error errNoKey) s9).recommendations = ⟨[], []⟩
    ∧ (optionalMatchNode (.error errNoKey)
        (dynamicRecommendationsNode (.error errNoKey) s9)).extracted_entities
      = s9.extracted_entities := by
  have h := node_failure_isolated (.error errNoKey) (.error errNoKey) s9 rfl
  exact ⟨(h.2.2 errNoKey rfl).1, (h.2.1 errNoKey rfl).1, h.1⟩

/-- One whole `TribuAI.process_input` call up to its entry node: a FRESH
`graph_input` is built on every call (`main.py:118-135`, accumulators
empty) and the graph — compiled WITHOUT a checkpointer
(`langgraph_config.py:207`, the `MemorySaver` of line 181 is never passed)
— starts at `llm_parser`. No state from a previous call is read. -/
def processTurnStart (extract : String → List Entity) (ui : String) : TState :=
  llmParserNode extract (initialState ui)

/-- A concrete extractor oracle for a two-turn session. -/
def demoExtract : String → List Entity := fun t =>
  if t = "I love Radiohead" then [⟨"Radiohead", "artist"⟩]
  else if t = "I love street art" then [⟨"street art", "art"⟩]
  else []

/-- Claim C1 evaluated at the failing input (two successive inputs of one
session): the first call accumulates Radiohead under music, but the second
call starts again from the empty profile, so the music category has SHRUNK
to empty across the turn boundary — the accumulated profile is not carried
into the next turn. -/
theorem session_state_not_carried :
    (processTurnStart demoExtract "I love Radiohead").extracted_entities.music = ["Radiohead"]
    ∧ (processTurnStart demoExtract "I love street art").extracted_entities.music = []
    ∧ (processTurnStart demoExtract "I love street art").extracted_entities.art
        = ["street art"] := by
  refine ⟨by decide, by decide, by decide⟩

/-- Claim C10: called with an empty entity list, `get_matching_info` returns
affinity 0, no shared interests and the cluster "General", and issues no
search request (the instrumented query trace is empty) — an output outside
the 75/85/90 step function. -/
theorem matching_empty_shortcircuit (search : SearchFn) :
    getMatchingInfoT search [] = (⟨0, [], "General"⟩, []) := rfl

end TribuAI
